import Mathlib

/-!
Shallow embedding of the outfit recommendation engine of the `ai-outfit`
repository: `recommender.py` (class `OutfitRecommender`) and `profile.py`
(class `StyleProfileManager`).

Conventions of the embedding:
* A clothing row from the `clothes` table is a `ClothingItem`; nullable text
  columns become `Option String`, with NULL and the empty string both
  Python-falsy.
* The sqlite database is passed explicitly: the recommender receives the
  wardrobe as a list, the profile manager receives a `ProfileDB` record and
  returns the updated record.  Timestamp columns (`created_at`,
  `updated_at`), which no claim touches, are omitted.
* `random.randint(0, 10)` in `_score_outfits` is modelled by an explicit
  stream `jitter : Nat -> Int`, index = iteration count of the scoring loop.
* Python floats in the preference weights are modelled by `Rat`; every
  number the code manipulates (multiples of 0.1, clamps at 0 and 5) is
  exact in both binary floating point and `Rat`.
* `_color_distance` returns `sqrt` of an integer and is only ever compared
  against the integer thresholds 30, 50, 100, 150; the embedding keeps the
  squared distance (`colorDistSq`) and compares with the squared thresholds
  900, 2500, 10000, 22500, which is equivalent.  The `except:` fallback
  `return 100` becomes the squared value 10000.
-/

/-- A row of the `clothes` table as dict-ified by `_get_all_clothes`.
`in_laundry` carries the SQL filter `in_laundry = 0 OR in_laundry IS NULL`
(`true` means the item is in laundry). -/
structure ClothingItem where
  id : Nat
  image_path : String
  type : String
  color_primary : Option String
  color_secondary : Option String
  pattern : Option String
  formality : String
  season : String
  times_worn : Nat
  in_laundry : Bool
deriving DecidableEq, Repr

/-- The weather dict with its temp and condition entries. -/
structure Weather where
  temp : Int
  condition : String
deriving DecidableEq, Repr

/-- An outfit dict built by `_create_combinations`: either a regular
top/bottom/shoes dict or a dress/shoes dict, the shoes slot possibly None. -/
inductive Outfit where
  | regular (top bottom : ClothingItem) (shoes : Option ClothingItem)
  | dress (d : ClothingItem) (shoes : Option ClothingItem)
deriving DecidableEq, Repr

/-- The five category buckets built by `_filter_by_occasion`. -/
structure Buckets where
  tops : List ClothingItem
  bottoms : List ClothingItem
  shoes : List ClothingItem
  dresses : List ClothingItem
  outerwear : List ClothingItem
deriving DecidableEq, Repr

/-- Python `str.lower()` (ASCII case folding suffices for the hex colors and
file names the code compares). -/
def pyLower (s : String) : String := String.mk (s.toList.map Char.toLower)

/-- Python `pat in s` substring test. -/
def strContains (s pat : String) : Bool :=
  s.toList.tails.any (fun t => pat.toList.isPrefixOf t)

/-- Python slice `s[a:b]` (on the character list of `s`). -/
def pySlice (s : List Char) (a b : Nat) : List Char := (s.drop a).take (b - a)

def isHexDigitChar (c : Char) : Bool :=
  c.isDigit || ('a' ≤ c && c ≤ 'f') || ('A' ≤ c && c ≤ 'F')

def hexDigitVal (c : Char) : Nat :=
  if c.isDigit then c.toNat - '0'.toNat
  else if 'a' ≤ c && c ≤ 'f' then c.toNat - 'a'.toNat + 10
  else c.toNat - 'A'.toNat + 10

def hexDigitsVal : List Char → Nat
  | [] => 0
  | c :: rest => hexDigitVal c * 16 ^ rest.length + hexDigitsVal rest

/-- Python `int(s, 16)` on the short slices `_color_distance` produces:
surrounding whitespace is stripped, an optional sign is accepted, then a
nonempty run of hex digits; anything else raises `ValueError` (`none`). -/
def pyIntHex (l : List Char) : Option Int :=
  let l := ((l.dropWhile Char.isWhitespace).reverse.dropWhile Char.isWhitespace).reverse
  match l with
  | [] => none
  | '+' :: rest =>
      if rest ≠ [] && rest.all isHexDigitChar then some (hexDigitsVal rest) else none
  | '-' :: rest =>
      if rest ≠ [] && rest.all isHexDigitChar then some (-(hexDigitsVal rest : Int)) else none
  | l =>
      if l.all isHexDigitChar then some (hexDigitsVal l) else none

/-- The `try:` body of `_color_distance`: parse `color[1:3]`, `color[3:5]`,
`color[5:7]` as hex integers; `none` when any slice raises. -/
def parseHexColor (s : String) : Option (Int × Int × Int) :=
  let cs := s.toList
  match pyIntHex (pySlice cs 1 3), pyIntHex (pySlice cs 3 5), pyIntHex (pySlice cs 5 7) with
  | some r, some g, some b => some (r, g, b)
  | _, _, _ => none

/-- Squared `_color_distance`: on a parse failure the code returns the
distance 100, i.e. the squared distance 10000. -/
def colorDistSq (color1 color2 : String) : Int :=
  match parseHexColor color1, parseHexColor color2 with
  | some (r1, g1, b1), some (r2, g2, b2) => (r1 - r2) ^ 2 + (g1 - g2) ^ 2 + (b1 - b2) ^ 2
  | _, _ => 10000

def neutralPalette : List String :=
  ["#000000", "#ffffff", "#808080", "#d3d3d3", "#a9a9a9", "#2f4f4f", "#696969"]

/-- `_is_neutral_color`; the squared form of `distance < 50` is
`colorDistSq < 2500`. -/
def isNeutralColor (color : Option String) : Bool :=
  match color with
  | none => true
  | some s =>
      if s = "" then true
      else neutralPalette.contains (pyLower s) || colorDistSq s "#808080" < 2500

/-- `_colors_similar` (default threshold 30, squared 900). -/
def colorsSimilar (color1 color2 : Option String) : Bool :=
  match color1, color2 with
  | some s1, some s2 =>
      if s1 = "" || s2 = "" then false else colorDistSq s1 s2 < 900
  | _, _ => false

/-- `_high_contrast` (threshold 150, squared 22500). -/
def highContrast (color1 color2 : Option String) : Bool :=
  match color1, color2 with
  | some s1, some s2 =>
      if s1 = "" || s2 = "" then false else colorDistSq s1 s2 > 22500
  | _, _ => false

/-- The SQL query of `_get_all_clothes`:
`SELECT * FROM clothes WHERE in_laundry = 0 OR in_laundry IS NULL`. -/
def getAllClothes (wardrobe : List ClothingItem) : List ClothingItem :=
  wardrobe.filter (fun c => !c.in_laundry)

def knownOccasions : List String :=
  ["gym", "work", "casual", "date", "home", "party", "formal"]

/-- The `occasion_rules` dict lookup, defaulting to the one-element
casual list for unknown occasions. -/
def occasionRules (occasion : String) : List String :=
  if occasion = "gym" then ["athletic", "casual"]
  else if occasion = "work" then ["business", "business-casual", "formal"]
  else if occasion = "casual" then ["casual", "business-casual"]
  else if occasion = "date" then ["business-casual", "formal", "casual"]
  else if occasion = "home" then ["casual", "athletic"]
  else if occasion = "party" then ["formal", "business-casual", "casual"]
  else if occasion = "formal" then ["formal", "business"]
  else ["casual"]

/-- `_filter_by_occasion`. -/
def filterByOccasion (clothes : List ClothingItem) (occasion : String) : Buckets :=
  let suitable := occasionRules occasion
  { tops := clothes.filter (fun c => c.type = "top" && suitable.contains c.formality)
    bottoms := clothes.filter (fun c => c.type = "bottom" && suitable.contains c.formality)
    shoes := clothes.filter (fun c => c.type = "shoes" && suitable.contains c.formality)
    dresses := clothes.filter (fun c => c.type = "dress" && suitable.contains c.formality)
    outerwear := clothes.filter (fun c => c.type = "outerwear" && suitable.contains c.formality) }

/-- `_filter_by_weather`. -/
def filterByWeather (s : Buckets) (weather : Weather) : Buckets :=
  let s :=
    if weather.temp < 18 then
      { s with tops := s.tops.filter (fun c => c.season ≠ "light")
               bottoms := s.bottoms.filter (fun c => c.season ≠ "light") }
    else if weather.temp > 32 then
      { s with tops := s.tops.filter (fun c => c.season ≠ "heavy")
               bottoms := s.bottoms.filter (fun c => c.season ≠ "heavy") }
    else s
  if strContains weather.condition "Rain" then
    { s with shoes := s.shoes.filter (fun c => !strContains (pyLower c.image_path) "sandal") }
  else s

/-- `_create_combinations`. -/
def createCombinations (suitable : Buckets) : List Outfit :=
  (suitable.tops.flatMap fun top =>
    suitable.bottoms.flatMap fun bottom =>
      if suitable.shoes.isEmpty then [Outfit.regular top bottom none]
      else suitable.shoes.map (fun shoe => Outfit.regular top bottom (some shoe)))
  ++ (suitable.dresses.flatMap fun d =>
      if suitable.shoes.isEmpty then [Outfit.dress d none]
      else suitable.shoes.map (fun shoe => Outfit.dress d (some shoe)))

/-- The item list each scoring helper walks (shoes included when present,
exactly as `_score_variety` and `apply_style_bonus` build it). -/
def outfitItems : Outfit → List ClothingItem
  | Outfit.regular top bottom shoes => [top, bottom] ++ shoes.toList
  | Outfit.dress d shoes => [d] ++ shoes.toList

def outfitItemIds (o : Outfit) : List Nat := (outfitItems o).map (fun c => c.id)

/-- The per-item case split of `_score_weather`. -/
def scoreWeatherItem (temp : Int) (item : ClothingItem) : Int :=
  if temp < 18 then
    if item.season = "heavy" then 15 else if item.season = "medium" then 8 else -10
  else if temp > 32 then
    if item.season = "light" then 15 else if item.season = "medium" then 8 else -10
  else
    if item.season = "medium" then 10 else 5

/-- `_score_weather` (regular: top and bottom; dress: the dress alone). -/
def scoreWeather (o : Outfit) (weather : Weather) : Int :=
  match o with
  | Outfit.regular top bottom _ => scoreWeatherItem weather.temp top + scoreWeatherItem weather.temp bottom
  | Outfit.dress d _ => scoreWeatherItem weather.temp d

/-- `_score_colors`. -/
def scoreColors (o : Outfit) : Int :=
  match o with
  | Outfit.dress _ _ => 15
  | Outfit.regular top bottom _ =>
      let topColor := top.color_primary
      let bottomColor := bottom.color_primary
      let topNeutral := isNeutralColor topColor
      let bottomNeutral := isNeutralColor bottomColor
      (if topNeutral || bottomNeutral then 15 else 0)
        + (if topNeutral && bottomNeutral then 5 else 0)
        + (if colorsSimilar topColor bottomColor then 10 else 0)
        + (if highContrast topColor bottomColor then 8 else 0)

/-- The per-item case split of `_score_variety`. -/
def varietyItem (item : ClothingItem) : Int :=
  if item.times_worn = 0 then 10
  else if item.times_worn < 3 then 5
  else if item.times_worn < 10 then 0
  else -5

/-- `_score_variety`. -/
def scoreVariety (o : Outfit) : Int :=
  (outfitItems o).foldl (fun acc item => acc + varietyItem item) 0

/-- `_score_patterns`. -/
def scorePatterns (o : Outfit) : Int :=
  match o with
  | Outfit.dress _ _ => 5
  | Outfit.regular top bottom _ =>
      if top.pattern = some "solid" && bottom.pattern = some "solid" then 10
      else if top.pattern = some "solid" || bottom.pattern = some "solid" then 8
      else -5

/-- The deterministic part of the score of one combination in
`_score_outfits`: base 50 plus the four component scores. -/
def scoreOne (o : Outfit) (weather : Weather) : Int :=
  50 + scoreWeather o weather + scoreColors o + scoreVariety o + scorePatterns o

/-- The scoring loop of `_score_outfits`: the combination handled in
iteration `i` receives `jitter i` as its `random.randint(0, 10)` draw. -/
def scoreList (outfits : List Outfit) (weather : Weather) (jitter : Nat → Int) (i : Nat) :
    List (Outfit × Int) :=
  match outfits with
  | [] => []
  | o :: rest => (o, scoreOne o weather + jitter i) :: scoreList rest weather jitter (i + 1)

/-- Stable descending insertion used to model Python's stable
`sorted(scored, key=lambda x: x[1], reverse=True)`. -/
def insertDesc (p : Outfit × Int) : List (Outfit × Int) → List (Outfit × Int)
  | [] => [p]
  | q :: rest => if q.2 ≤ p.2 then p :: q :: rest else q :: insertDesc p rest

/-- Stable descending sort by score (extensionally Python's
`sorted(..., key=lambda x: x[1], reverse=True)`). -/
def sortScoreDesc (l : List (Outfit × Int)) : List (Outfit × Int) :=
  l.foldr insertDesc []

/-- `_score_outfits`. -/
def scoreOutfits (outfits : List Outfit) (weather : Weather) (jitter : Nat → Int) :
    List (Outfit × Int) :=
  sortScoreDesc (scoreList outfits weather jitter 0)

/-- First loop of `_select_diverse_outfits`: greedy acceptance of outfits
whose item ids do not meet `used_items`, with the `len(selected) >= num`
break. -/
def firstPassAux (num : Nat) :
    List (Outfit × Int) → List (Outfit × Int) → List Nat → List (Outfit × Int)
  | [], selected, _ => selected
  | p :: rest, selected, used =>
      if num ≤ selected.length then selected
      else if (outfitItemIds p.1).any (fun i => used.contains i) then
        firstPassAux num rest selected used
      else
        firstPassAux num rest (selected ++ [p]) (used ++ outfitItemIds p.1)

/-- Second loop of `_select_diverse_outfits`: fill remaining slots ignoring
the overlap constraint, skipping pairs already selected. -/
def secondPassAux (num : Nat) :
    List (Outfit × Int) → List (Outfit × Int) → List (Outfit × Int)
  | [], selected => selected
  | p :: rest, selected =>
      if num ≤ selected.length then selected
      else if selected.contains p then secondPassAux num rest selected
      else secondPassAux num rest (selected ++ [p])

/-- `_select_diverse_outfits`. -/
def selectDiverseOutfits (scoredOutfits : List (Outfit × Int)) (num : Nat) :
    List (Outfit × Int) :=
  if scoredOutfits.length ≤ num then scoredOutfits
  else
    let selected := firstPassAux num scoredOutfits [] []
    let selected := secondPassAux num scoredOutfits selected
    selected.take num

/-- `OutfitRecommender.get_suggestions`; the wardrobe stands for the
`clothes` table, `jitter` for the per-iteration `random.randint(0, 10)`
draws. -/
def getSuggestions (wardrobe : List ClothingItem) (occasion : String) (weather : Weather)
    (jitter : Nat → Int) (numSuggestions : Nat) : List (Outfit × Int) :=
  let clothes := getAllClothes wardrobe
  if clothes.length < 2 then []
  else
    let suitable := filterByOccasion clothes occasion
    if (suitable.tops.isEmpty || suitable.bottoms.isEmpty) && suitable.dresses.isEmpty then []
    else
      let suitable := filterByWeather suitable weather
      let allCombos := createCombinations suitable
      if allCombos.isEmpty then []
      else
        let scored := scoreOutfits allCombos weather jitter
        selectDiverseOutfits scored numSuggestions

/-! ## Style Profile Manager (`profile.py`) -/

/-- A row of the `outfits` table as read by `rate_outfit`
(`SELECT top_id, bottom_id, shoes_id, occasion FROM outfits WHERE id = ?`). -/
structure OutfitRow where
  id : Nat
  top_id : Option Nat
  bottom_id : Option Nat
  shoes_id : Option Nat
  occasion : Option String
deriving DecidableEq, Repr

/-- The mutable state `rate_outfit` touches: the `style_profile` table
(unique key `(preference_type, preference_value)` with its REAL weight), the
append-only `outfit_ratings` table (outfit_id, rating, feedback), and the
read-only `outfits` and `clothes` tables. -/
structure ProfileDB where
  style_profile : List ((String × String) × Rat)
  outfit_ratings : List (Nat × Int × Option String)
  outfits : List OutfitRow
  clothes : List ClothingItem
deriving DecidableEq, Repr

/-- Error alphabet of the rating API surface; `rate_outfit` itself never
raises, so the embedding only ever produces `Except.ok`. -/
inductive ProfileError where
  | notFound
deriving DecidableEq, Repr

/-- Python truthiness of a nullable integer id (`if id`). -/
def optTruthyNat : Option Nat → Bool
  | none => false
  | some n => n ≠ 0

/-- `_update_preference`: the upsert
`INSERT ... VALUES (?, ?, 1.0 + change, ?) ON CONFLICT(...) DO UPDATE SET
weight = MAX(0.0, MIN(5.0, weight + change))`. -/
def updatePreference (tbl : List ((String × String) × Rat)) (prefType prefValue : String)
    (weightChange : Rat) : List ((String × String) × Rat) :=
  if tbl.any (fun e => e.1 = (prefType, prefValue)) then
    tbl.map (fun e =>
      if e.1 = (prefType, prefValue) then (e.1, max 0 (min 5 (e.2 + weightChange))) else e)
  else
    tbl ++ [((prefType, prefValue), 1 + weightChange)]

/-- The per-item body of the learning loop in `rate_outfit`: update the
color, formality and pattern preferences of one clothes row (each guarded by
Python truthiness of the column). -/
def learnItem (tbl : List ((String × String) × Rat)) (item : ClothingItem)
    (weightChange : Rat) : List ((String × String) × Rat) :=
  let tbl :=
    match item.color_primary with
    | some c => if c ≠ "" then updatePreference tbl "color" c weightChange else tbl
    | none => tbl
  let tbl :=
    if item.formality ≠ "" then updatePreference tbl "formality" item.formality weightChange
    else tbl
  match item.pattern with
  | some p => if p ≠ "" then updatePreference tbl "pattern" p weightChange else tbl
  | none => tbl

/-- `StyleProfileManager.rate_outfit`: append the rating row, look up the
outfit; when found, nudge the preferences of each referenced clothes row by
`(rating - 3) * 0.5` and the occasion preference by `(rating - 3) * 0.3`.
The Python function raises nothing, so the result is always `Except.ok`. -/
def rateOutfit (db : ProfileDB) (outfit_id : Nat) (rating : Int) (feedback : Option String) :
    Except ProfileError ProfileDB :=
  let db := { db with outfit_ratings := db.outfit_ratings ++ [(outfit_id, rating, feedback)] }
  match db.outfits.find? (fun r => r.id = outfit_id) with
  | none => Except.ok db
  | some row =>
      let itemIds := ([row.top_id, row.bottom_id, row.shoes_id].filter optTruthyNat).filterMap id
      let weightChange : Rat := ((rating : Rat) - 3) * 0.5
      let tbl := itemIds.foldl (fun tbl itemId =>
        match db.clothes.find? (fun c => c.id = itemId) with
        | none => tbl
        | some item => learnItem tbl item weightChange) db.style_profile
      let tbl :=
        match row.occasion with
        | some occ =>
            if occ ≠ "" then updatePreference tbl "occasion" occ (((rating : Rat) - 3) * 0.3)
            else tbl
        | none => tbl
      Except.ok { db with style_profile := tbl }

/-- The state after `rate_outfit` (total, since the call never raises). -/
def rateOutfitState (db : ProfileDB) (outfit_id : Nat) (rating : Int)
    (feedback : Option String) : ProfileDB :=
  match rateOutfit db outfit_id rating feedback with
  | Except.ok db' => db'
  | Except.error _ => db

def lookupWeight (tbl : List ((String × String) × Rat)) (prefType prefValue : String) :
    Option Rat :=
  (tbl.find? (fun e => e.1 = (prefType, prefValue))).map (fun e => e.2)

/-- The dict produced by `get_preferences`, as consumed by
`apply_style_bonus` (association lists keyed by preference value). -/
structure Preferences where
  colors : List (String × Rat)
  formality : List (String × Rat)
  patterns : List (String × Rat)
  occasions : List (String × Rat)
deriving DecidableEq, Repr

def lookupPref (l : List (String × Rat)) (k : String) : Option Rat :=
  (l.find? (fun p => p.1 = k)).map (fun p => p.2)

/-- Python `int(...)` on a float/rational: truncation toward zero. -/
def pyTrunc (q : Rat) : Int := Int.tdiv q.num (q.den : Int)

/-- `StyleProfileManager.apply_style_bonus`: per item, `(weight - 1) * 10`
for a learned color, `* 8` for a learned formality, `* 5` for a learned
pattern; the float total passes through `int(bonus)`. -/
def applyStyleBonus (preferences : Preferences) (outfit : Outfit) : Int :=
  let bonus : Rat := (outfitItems outfit).foldl (fun acc item =>
    let acc :=
      match item.color_primary with
      | some c =>
          if c ≠ "" then
            match lookupPref preferences.colors c with
            | some w => acc + (w - 1) * 10
            | none => acc
          else acc
      | none => acc
    let acc :=
      if item.formality ≠ "" then
        match lookupPref preferences.formality item.formality with
        | some w => acc + (w - 1) * 8
        | none => acc
      else acc
    match item.pattern with
    | some p =>
        if p ≠ "" then
          match lookupPref preferences.patterns p with
          | some w => acc + (w - 1) * 5
          | none => acc
        else acc
    | none => acc) (0 : Rat)
  pyTrunc bonus

/-- All stored preference weights lie in the documented range `[0, 5]`. -/
def weightsOk (tbl : List ((String × String) × Rat)) : Prop :=
  ∀ e ∈ tbl, 0 ≤ e.2 ∧ e.2 ≤ 5

/-! ## Concrete fixtures for counterexamples and witnesses -/

/-- Clothing-row builder used by the concrete scenarios (not in laundry,
stock image path, no secondary color). -/
def mkItem (i : Nat) (ty : String) (col : Option String) (pat : Option String)
    (form : String) (sea : String) (worn : Nat) : ClothingItem :=
  ⟨i, "img.jpg", ty, col, none, pat, form, sea, worn, false⟩

/-- Zero jitter stream (`random.randint(0, 10)` drawing 0 every time). -/
def z0 : Nat → Int := fun _ => 0

def w25 : Weather := ⟨25, "Clear"⟩

/-- A red casual top, id 1. -/
def topR : ClothingItem := mkItem 1 "top" (some "#ff0000") (some "solid") "casual" "medium" 0

/-- A blue casual bottom, id 2. -/
def botB : ClothingItem := mkItem 2 "bottom" (some "#0000ff") (some "solid") "casual" "medium" 0

/-- Two-item wardrobe producing exactly one combination. -/
def W1 : List ClothingItem := [topR, botB]

/-- The single combination `W1` yields. -/
def o1 : Outfit := Outfit.regular topR botB none

/-- A learned profile that rewards the color of `topR` with weight 2. -/
def prefsR : Preferences := ⟨[("#ff0000", 2)], [], [], []⟩

/-- A business-casual top (admitted by the `casual` allow-list but not by
the unknown-occasion fallback). -/
def bcTop : ClothingItem := mkItem 1 "top" none (some "solid") "business-casual" "medium" 0

def t1 : ClothingItem := mkItem 1 "top" none (some "solid") "casual" "medium" 0
def t2 : ClothingItem := mkItem 2 "top" none (some "solid") "casual" "medium" 0
def b1 : ClothingItem := mkItem 3 "bottom" none (some "solid") "casual" "medium" 0
def b2 : ClothingItem := mkItem 4 "bottom" none (some "solid") "casual" "medium" 0

/-- Wardrobe of two tops and two bottoms: four combinations, every pair of
combinations in the result shares an item with some other. -/
def W5 : List ClothingItem := [t1, t2, b1, b2]

def i6 : ClothingItem := mkItem 6 "bottom" none none "casual" "medium" 0

def oA : Outfit := Outfit.regular t1 b1 none
def oB : Outfit := Outfit.regular t1 b2 none
def oC : Outfit := Outfit.regular t2 i6 none
def oD : Outfit := Outfit.regular t2 b1 none

/-- Scored list (descending) on which the first selection pass accepts
`oA` (ids 1,3) and `oC` (ids 2,6), then the second pass appends `oB`
(score 90) after `oC` (score 80), breaking the global descending order. -/
def ex4 : List (Outfit × Int) := [(oA, 100), (oB, 90), (oC, 80), (oD, 70)]

/-- Clothes row whose only learnable attribute is the color `#ff0000`
(formality `NULL`-like, pattern `NULL`). -/
def redItem : ClothingItem := mkItem 1 "top" (some "#ff0000") none "" "medium" 0

/-- Logged outfit 1 referencing only `redItem`, with no occasion. -/
def row1 : OutfitRow := ⟨1, some 1, none, none, none⟩

/-- Fresh profile database holding outfit 1 and `redItem`. -/
def dbRed : ProfileDB := ⟨[], [], [row1], [redItem]⟩

/-- One 5-star rating of outfit 1. -/
def rateFive (db : ProfileDB) : ProfileDB := rateOutfitState db 1 5 none

/-- The `outfit_ratings` table after `n` five-star ratings of outfit 1. -/
def ratRows (n : Nat) : List (Nat × Int × Option String) :=
  List.replicate n ((1 : Nat), (5 : Int), (none : Option String))

/-- The profile database reached after `n` five-star ratings, with
style-profile table `sp`. -/
def mkDbRed (n : Nat) (sp : List ((String × String) × Rat)) : ProfileDB :=
  ⟨sp, ratRows n, [row1], [redItem]⟩

/-- The style-profile table after `n` five-star ratings of outfit 1. -/
def spIter : Nat → List ((String × String) × Rat)
  | 0 => []
  | n + 1 => updatePreference (spIter n) "color" "#ff0000" 1

/-- Profile database with a learned weight, used to show that rating a
nonexistent outfit leaves the profile untouched. -/
def db7 : ProfileDB := ⟨[(("color", "#ff0000"), 2)], [], [row1], [redItem]⟩

/-- A light-weight casual top: admitted by the occasion filter but removed
by the cold-weather filter. -/
def lightTop : ClothingItem := mkItem 1 "top" none none "casual" "light" 0

/-- A medium-weight casual bottom. -/
def medBottom : ClothingItem := mkItem 2 "bottom" none none "casual" "medium" 0

/-- Cold weather (10 degrees): the weather filter drops light tops/bottoms. -/
def w10 : Weather := ⟨10, "Clear"⟩

/-! ## Lemmas about the scoring and selection pipeline -/

theorem mem_insertDesc {p q : Outfit × Int} {l : List (Outfit × Int)} :
    p ∈ insertDesc q l ↔ p = q ∨ p ∈ l := by
  induction l with
  | nil => simp [insertDesc]
  | cons r rest ih =>
      by_cases h : r.2 ≤ q.2
      · simp [insertDesc, h]
      · simp only [insertDesc, if_neg h, List.mem_cons, ih]
        tauto

theorem mem_sortScoreDesc {p : Outfit × Int} {l : List (Outfit × Int)} :
    p ∈ sortScoreDesc l ↔ p ∈ l := by
  induction l with
  | nil => simp [sortScoreDesc]
  | cons q rest ih =>
      show p ∈ insertDesc q (sortScoreDesc rest) ↔ _
      rw [mem_insertDesc]
      simp [ih]

theorem sorted_insertDesc {q : Outfit × Int} {l : List (Outfit × Int)}
    (h : List.Sorted (fun a b : Outfit × Int => b.2 ≤ a.2) l) :
    List.Sorted (fun a b : Outfit × Int => b.2 ≤ a.2) (insertDesc q l) := by
  induction l with
  | nil => simp [insertDesc]
  | cons r rest ih =>
      rcases List.sorted_cons.mp h with ⟨hr, hrest⟩
      by_cases hc : r.2 ≤ q.2
      · simp only [insertDesc, if_pos hc]
        refine List.sorted_cons.mpr ⟨?_, h⟩
        intro x hx
        rcases List.mem_cons.mp hx with rfl | hx
        · exact hc
        · exact le_trans (hr x hx) hc
      · simp only [insertDesc, if_neg hc]
        refine List.sorted_cons.mpr ⟨?_, ih hrest⟩
        intro x hx
        rcases mem_insertDesc.mp hx with rfl | hx
        · exact le_of_not_le hc
        · exact hr x hx

theorem sorted_sortScoreDesc (l : List (Outfit × Int)) :
    List.Sorted (fun a b : Outfit × Int => b.2 ≤ a.2) (sortScoreDesc l) := by
  induction l with
  | nil => simp [sortScoreDesc]
  | cons q rest ih => exact sorted_insertDesc ih

theorem mem_scoreList {outfits : List Outfit} {weather : Weather} {jitter : Nat → Int}
    {i : Nat} {p : Outfit × Int} (h : p ∈ scoreList outfits weather jitter i) :
    ∃ k, outfits[k]? = some p.1 ∧ p.2 = scoreOne p.1 weather + jitter (i + k) := by
  induction outfits generalizing i with
  | nil => simp [scoreList] at h
  | cons o rest ih =>
      rcases List.mem_cons.mp h with rfl | h
      · exact ⟨0, by simp, rfl⟩
      · rcases ih h with ⟨k, hk, hsc⟩
        refine ⟨k + 1, by simpa using hk, ?_⟩
        have harith : i + 1 + k = i + (k + 1) := by omega
        rw [hsc, harith]

theorem mem_scoreOutfits {outfits : List Outfit} {weather : Weather} {jitter : Nat → Int}
    {p : Outfit × Int} (h : p ∈ scoreOutfits outfits weather jitter) :
    ∃ k, outfits[k]? = some p.1 ∧ p.2 = scoreOne p.1 weather + jitter k := by
  rcases mem_scoreList (mem_sortScoreDesc.mp h) with ⟨k, hk, hsc⟩
  exact ⟨k, hk, by simpa using hsc⟩

theorem mem_firstPassAux {num : Nat} {l selected : List (Outfit × Int)} {used : List Nat}
    {p : Outfit × Int} (h : p ∈ firstPassAux num l selected used) :
    p ∈ selected ∨ p ∈ l := by
  induction l generalizing selected used with
  | nil => exact Or.inl h
  | cons q rest ih =>
      by_cases h1 : num ≤ selected.length
      · rw [firstPassAux, if_pos h1] at h
        exact Or.inl h
      · rw [firstPassAux, if_neg h1] at h
        by_cases h2 : (outfitItemIds q.1).any (fun i => used.contains i)
        · rw [if_pos h2] at h
          rcases ih h with hs | hl
          · exact Or.inl hs
          · exact Or.inr (List.mem_cons_of_mem _ hl)
        · rw [if_neg h2] at h
          rcases ih h with hs | hl
          · rcases List.mem_append.mp hs with hs | hs
            · exact Or.inl hs
            · simp at hs
              exact Or.inr (by simp [hs])
          · exact Or.inr (List.mem_cons_of_mem _ hl)

theorem firstPassAux_append {num : Nat} (l : List (Outfit × Int)) :
    ∀ (selected : List (Outfit × Int)) (used : List Nat),
      ∃ t, firstPassAux num l selected used = selected ++ t ∧ t.Sublist l := by
  induction l with
  | nil => exact fun selected used => ⟨[], by simp [firstPassAux]⟩
  | cons q rest ih =>
      intro selected used
      by_cases h1 : num ≤ selected.length
      · exact ⟨[], by simp [firstPassAux, if_pos h1]⟩
      · by_cases h2 : (outfitItemIds q.1).any (fun i => used.contains i)
        · rcases ih selected used with ⟨t, ht, hsub⟩
          refine ⟨t, ?_, hsub.cons q⟩
          rw [firstPassAux, if_neg h1, if_pos h2, ht]
        · rcases ih (selected ++ [q]) (used ++ outfitItemIds q.1) with ⟨t, ht, hsub⟩
          refine ⟨q :: t, ?_, hsub.cons₂ q⟩
          rw [firstPassAux, if_neg h1, if_neg h2, ht]
          simp

theorem firstPassAux_length_le {num : Nat} (l : List (Outfit × Int)) :
    ∀ (selected : List (Outfit × Int)) (used : List Nat), selected.length ≤ num →
      (firstPassAux num l selected used).length ≤ num := by
  induction l with
  | nil => exact fun selected used h => h
  | cons q rest ih =>
      intro selected used h
      by_cases h1 : num ≤ selected.length
      · rw [firstPassAux, if_pos h1]
        exact h
      · rw [firstPassAux, if_neg h1]
        by_cases h2 : (outfitItemIds q.1).any (fun i => used.contains i)
        · rw [if_pos h2]
          exact ih selected used h
        · rw [if_neg h2]
          refine ih _ _ ?_
          simp only [List.length_append, List.length_singleton]
          omega

theorem secondPassAux_append {num : Nat} (l : List (Outfit × Int)) :
    ∀ selected : List (Outfit × Int),
      ∃ t, secondPassAux num l selected = selected ++ t ∧ ∀ p ∈ t, p ∈ l := by
  induction l with
  | nil => exact fun selected => ⟨[], by simp [secondPassAux]⟩
  | cons q rest ih =>
      intro selected
      by_cases h1 : num ≤ selected.length
      · exact ⟨[], by simp [secondPassAux, if_pos h1]⟩
      · by_cases h2 : selected.contains q
        · rcases ih selected with ⟨t, ht, hmem⟩
          refine ⟨t, ?_, fun p hp => List.mem_cons_of_mem _ (hmem p hp)⟩
          rw [secondPassAux, if_neg h1, if_pos h2, ht]
        · rcases ih (selected ++ [q]) with ⟨t, ht, hmem⟩
          refine ⟨q :: t, ?_, ?_⟩
          · rw [secondPassAux, if_neg h1, if_neg h2, ht]
            simp
          · intro p hp
            rcases List.mem_cons.mp hp with rfl | hp
            · exact List.mem_cons_self _ _
            · exact List.mem_cons_of_mem _ (hmem p hp)

theorem secondPassAux_stop {num : Nat} {l selected : List (Outfit × Int)}
    (h : num ≤ selected.length) : secondPassAux num l selected = selected := by
  cases l with
  | nil => rfl
  | cons q rest => rw [secondPassAux, if_pos h]

theorem mem_selectDiverseOutfits {scored : List (Outfit × Int)} {num : Nat}
    {p : Outfit × Int} (h : p ∈ selectDiverseOutfits scored num) : p ∈ scored := by
  unfold selectDiverseOutfits at h
  by_cases hlen : scored.length ≤ num
  · rwa [if_pos hlen] at h
  · rw [if_neg hlen] at h
    have h' := (List.take_sublist num _).mem h
    rcases secondPassAux_append scored (firstPassAux num scored [] []) with ⟨t, ht, hmem⟩
    rw [ht] at h'
    rcases List.mem_append.mp h' with hfp | htl
    · rcases mem_firstPassAux hfp with hs | hs
      · simp at hs
      · exact hs
    · exact hmem p htl

theorem mem_getSuggestions {wardrobe : List ClothingItem} {occasion : String}
    {weather : Weather} {jitter : Nat → Int} {num : Nat} {p : Outfit × Int}
    (h : p ∈ getSuggestions wardrobe occasion weather jitter num) :
    p ∈ scoreOutfits
        (createCombinations (filterByWeather (filterByOccasion (getAllClothes wardrobe) occasion) weather))
        weather jitter := by
  simp only [getSuggestions] at h
  split at h
  · simp at h
  · split at h
    · simp at h
    · split at h
      · simp at h
      · exact mem_selectDiverseOutfits h

theorem firstPassAux_disjoint {num : Nat} (l : List (Outfit × Int)) :
    ∀ (selected : List (Outfit × Int)) (used : List Nat),
      (∀ p ∈ selected, ∀ i ∈ outfitItemIds p.1, i ∈ used) →
      List.Pairwise (fun p q : Outfit × Int => ∀ i ∈ outfitItemIds p.1, i ∉ outfitItemIds q.1)
        selected →
      List.Pairwise (fun p q : Outfit × Int => ∀ i ∈ outfitItemIds p.1, i ∉ outfitItemIds q.1)
        (firstPassAux num l selected used) := by
  induction l with
  | nil => exact fun selected used _ hp => hp
  | cons q rest ih =>
      intro selected used hin hp
      by_cases h1 : num ≤ selected.length
      · rw [firstPassAux, if_pos h1]
        exact hp
      · rw [firstPassAux, if_neg h1]
        by_cases h2 : (outfitItemIds q.1).any (fun i => used.contains i)
        · rw [if_pos h2]
          exact ih selected used hin hp
        · rw [if_neg h2]
          have hnew : ∀ i ∈ outfitItemIds q.1, i ∉ used := by
            intro i hi hmem
            apply h2
            simp only [List.any_eq_true]
            exact ⟨i, hi, by simpa using hmem⟩
          refine ih _ _ ?_ ?_
          · intro p hp' i hi
            rcases List.mem_append.mp hp' with hp' | hp'
            · exact List.mem_append_left _ (hin p hp' i hi)
            · simp only [List.mem_singleton] at hp'
              subst hp'
              exact List.mem_append_right _ hi
          · refine List.pairwise_append.mpr ⟨hp, List.pairwise_singleton _ _, ?_⟩
            intro p hp' r hr i hi
            simp only [List.mem_singleton] at hr
            subst hr
            intro hcontra
            exact hnew i hcontra (hin p hp' i hi)

theorem selectDiverse_firstPass_prefix {scored : List (Outfit × Int)} {num : Nat}
    (h : num < scored.length) :
    ∃ rest, selectDiverseOutfits scored num = firstPassAux num scored [] [] ++ rest := by
  unfold selectDiverseOutfits
  rw [if_neg (not_le.mpr h)]
  show ∃ rest,
    List.take num (secondPassAux num scored (firstPassAux num scored [] [])) =
      firstPassAux num scored [] [] ++ rest
  rcases @secondPassAux_append num scored (firstPassAux num scored [] []) with ⟨t, ht, _⟩
  rw [ht]
  have hlen : (firstPassAux num scored [] []).length ≤ num :=
    firstPassAux_length_le scored [] [] (by simp)
  rw [List.take_append_eq_append_take, List.take_of_length_le hlen]
  exact ⟨_, rfl⟩

theorem mem_createCombinations {s : Buckets} {o : Outfit} (h : o ∈ createCombinations s) :
    (∃ t ∈ s.tops, ∃ b ∈ s.bottoms, ∃ sh, o = Outfit.regular t b sh ∧
        (sh = none ∨ ∃ x ∈ s.shoes, sh = some x)) ∨
    (∃ d ∈ s.dresses, ∃ sh, o = Outfit.dress d sh ∧
        (sh = none ∨ ∃ x ∈ s.shoes, sh = some x)) := by
  unfold createCombinations at h
  rcases List.mem_append.mp h with h | h
  · left
    rcases List.mem_flatMap.mp h with ⟨t, ht, h⟩
    rcases List.mem_flatMap.mp h with ⟨b, hb, h⟩
    by_cases hsh : s.shoes.isEmpty
    · rw [if_pos hsh] at h
      simp only [List.mem_singleton] at h
      exact ⟨t, ht, b, hb, none, h, Or.inl rfl⟩
    · rw [if_neg hsh] at h
      rcases List.mem_map.mp h with ⟨x, hx, hxe⟩
      exact ⟨t, ht, b, hb, some x, hxe.symm, Or.inr ⟨x, hx, rfl⟩⟩
  · right
    rcases List.mem_flatMap.mp h with ⟨d, hd, h⟩
    by_cases hsh : s.shoes.isEmpty
    · rw [if_pos hsh] at h
      simp only [List.mem_singleton] at h
      exact ⟨d, hd, none, h, Or.inl rfl⟩
    · rw [if_neg hsh] at h
      rcases List.mem_map.mp h with ⟨x, hx, hxe⟩
      exact ⟨d, hd, some x, hxe.symm, Or.inr ⟨x, hx, rfl⟩⟩

theorem filterByOccasion_types {clothes : List ClothingItem} {occ : String} :
    (∀ c ∈ (filterByOccasion clothes occ).tops, c.type = "top") ∧
    (∀ c ∈ (filterByOccasion clothes occ).bottoms, c.type = "bottom") ∧
    (∀ c ∈ (filterByOccasion clothes occ).shoes, c.type = "shoes") ∧
    (∀ c ∈ (filterByOccasion clothes occ).dresses, c.type = "dress") := by
  refine ⟨?_, ?_, ?_, ?_⟩ <;> intro c hc <;>
    simp only [filterByOccasion, List.mem_filter, Bool.and_eq_true, decide_eq_true_eq] at hc <;>
    exact hc.2.1

theorem filterByWeather_sub {s : Buckets} {w : Weather} :
    (∀ c ∈ (filterByWeather s w).tops, c ∈ s.tops) ∧
    (∀ c ∈ (filterByWeather s w).bottoms, c ∈ s.bottoms) ∧
    (∀ c ∈ (filterByWeather s w).shoes, c ∈ s.shoes) ∧
    (∀ c ∈ (filterByWeather s w).dresses, c ∈ s.dresses) := by
  refine ⟨?_, ?_, ?_, ?_⟩ <;> intro c hc <;>
    by_cases h1 : w.temp < 18 <;>
    by_cases h2 : w.temp > 32 <;>
    by_cases h3 : strContains w.condition "Rain" = true <;>
    simp only [filterByWeather, h1, h2, h3, if_true, if_false, List.mem_filter,
      Bool.not_eq_true', if_pos, if_neg, Bool.and_eq_true, decide_eq_true_eq,
      ite_true, ite_false] at hc <;>
    simp_all

theorem profileDB_ratings_update_outfits (db : ProfileDB) (r : List (Nat × Int × Option String)) :
    ({ db with outfit_ratings := r } : ProfileDB).outfits = db.outfits := rfl

theorem profileDB_ratings_update_clothes (db : ProfileDB) (r : List (Nat × Int × Option String)) :
    ({ db with outfit_ratings := r } : ProfileDB).clothes = db.clothes := rfl

theorem profileDB_ratings_update_profile (db : ProfileDB) (r : List (Nat × Int × Option String)) :
    ({ db with outfit_ratings := r } : ProfileDB).style_profile = db.style_profile := rfl

theorem profileDB_ratings_update_ratings (db : ProfileDB) (r : List (Nat × Int × Option String)) :
    ({ db with outfit_ratings := r } : ProfileDB).outfit_ratings = r := rfl

theorem profileDB_profile_update_ratings (db : ProfileDB) (sp : List ((String × String) × Rat)) :
    ({ db with style_profile := sp } : ProfileDB).outfit_ratings = db.outfit_ratings := rfl

theorem profileDB_profile_update_profile (db : ProfileDB) (sp : List ((String × String) × Rat)) :
    ({ db with style_profile := sp } : ProfileDB).style_profile = sp := rfl

/-! ## Claim theorems -/

theorem createCombinations_nil {s : Buckets}
    (h : (s.tops = [] ∨ s.bottoms = []) ∧ s.dresses = []) :
    createCombinations s = [] := by
  unfold createCombinations
  rcases h with ⟨ht, hd⟩
  rw [hd]
  rcases ht with ht | ht <;> simp [ht]

/-- C3: whenever the wardrobe snapshot holds fewer than 2 non-laundry
items, or the occasion+weather filtering leaves no tops or no bottoms
while also leaving no dresses (so no combination survives — this covers
both an empty occasion bucket and a bucket emptied by the weather filter),
`get_suggestions` returns the empty list (it is a total function of the
embedding, so no exception and no partial result is possible). -/
theorem c3_empty_result (wardrobe : List ClothingItem) (occasion : String) (weather : Weather)
    (jitter : Nat → Int) (num : Nat)
    (h : (getAllClothes wardrobe).length < 2 ∨
      (((filterByWeather (filterByOccasion (getAllClothes wardrobe) occasion) weather).tops = [] ∨
        (filterByWeather (filterByOccasion (getAllClothes wardrobe) occasion) weather).bottoms
          = []) ∧
        (filterByWeather (filterByOccasion (getAllClothes wardrobe) occasion) weather).dresses
          = [])) :
    getSuggestions wardrobe occasion weather jitter num = [] := by
  rcases h with h | h
  · simp [getSuggestions, if_pos h]
  · by_cases h1 : (getAllClothes wardrobe).length < 2
    · simp [getSuggestions, if_pos h1]
    · by_cases h2 : (((filterByOccasion (getAllClothes wardrobe) occasion).tops.isEmpty
          || (filterByOccasion (getAllClothes wardrobe) occasion).bottoms.isEmpty)
          && (filterByOccasion (getAllClothes wardrobe) occasion).dresses.isEmpty) = true
      · simp [getSuggestions, if_neg h1, h2]
      · have hcombos : (createCombinations
            (filterByWeather (filterByOccasion (getAllClothes wardrobe) occasion)
              weather)).isEmpty = true := by
          rw [List.isEmpty_iff]
          exact createCombinations_nil h
        simp [getSuggestions, if_neg h1, h2, hcombos]

/-- C3 witness: a one-item wardrobe returns `[]`, and so does a wardrobe
whose only top is light-weight and removed by the 10-degree weather filter
although the occasion filter kept it. -/
theorem c3_witness :
    ((getAllClothes [topR]).length < 2 ∧ getSuggestions [topR] "casual" w25 z0 4 = []) ∧
    ((filterByOccasion (getAllClothes [lightTop, medBottom]) "casual").tops = [lightTop] ∧
     (filterByWeather (filterByOccasion (getAllClothes [lightTop, medBottom]) "casual") w10).tops
        = [] ∧
     getSuggestions [lightTop, medBottom] "casual" w10 z0 4 = []) :=
  ⟨⟨by decide, c3_empty_result [topR] "casual" w25 z0 4 (Or.inl (by decide))⟩,
   ⟨by decide, by decide,
    c3_empty_result [lightTop, medBottom] "casual" w10 z0 4 (Or.inr (by decide))⟩⟩

/-- C10: color-coordination scoring is total: a missing or empty primary
color is neutral; a string failing hex parsing has squared distance exactly
10000 (distance 100) to anything, hence is neither similar (30, squared
900) nor high-contrast (150, squared 22500); a regular outfit with both
primary colors missing scores exactly 20 (15 one-neutral + 5 both-neutral). -/
theorem c10_color_totality :
    isNeutralColor none = true ∧
    isNeutralColor (some "") = true ∧
    (∀ s c : String, parseHexColor s = none →
      colorDistSq s c = 10000 ∧ colorDistSq c s = 10000 ∧
      colorsSimilar (some s) (some c) = false ∧ highContrast (some s) (some c) = false) ∧
    (∀ top bottom : ClothingItem, ∀ shoes : Option ClothingItem,
      top.color_primary = none → bottom.color_primary = none →
      scoreColors (Outfit.regular top bottom shoes) = 20) := by
  refine ⟨rfl, rfl, ?_, ?_⟩
  · intro s c hp
    have hd1 : colorDistSq s c = 10000 := by
      unfold colorDistSq
      rw [hp]
    have hd2 : colorDistSq c s = 10000 := by
      unfold colorDistSq
      rw [hp]
      rcases parseHexColor c with _ | ⟨r, g, b⟩ <;> rfl
    refine ⟨hd1, hd2, ?_, ?_⟩
    · simp [colorsSimilar, hd1]
    · simp [highContrast, hd1]
  · intro top bottom shoes h1 h2
    simp [scoreColors, h1, h2, isNeutralColor, colorsSimilar, highContrast]

/-- C10 witness: the non-hex string "red" fails parsing and keeps the
default distance to any color, and an all-missing-color regular outfit
scores 20. -/
theorem c10_witness :
    parseHexColor "red" = none ∧ colorDistSq "red" "#0000ff" = 10000 ∧
    t1.color_primary = none ∧ scoreColors (Outfit.regular t1 b1 none) = 20 :=
  ⟨by decide, (c10_color_totality.2.2.1 "red" "#0000ff" (by decide)).1, by decide,
    c10_color_totality.2.2.2 t1 b1 none (by decide) (by decide)⟩

/-- C2 counterexample: the unrecognized occasion "brunch" rejects a
business-casual top that the `casual` occasion rule admits, so the fallback
is not the `casual` rule. -/
theorem c2_cex :
    (filterByOccasion [bcTop] "brunch").tops = [] ∧
    (filterByOccasion [bcTop] "casual").tops = [bcTop] := by
  decide

/-- C2 amended: an occasion outside the seven known ones falls back to the
allow-list `["casual"]` alone (not the `casual` occasion's
`["casual", "business-casual"]`), so exactly the items of formality
`"casual"` are admitted into each bucket. -/
theorem c2_amended (occ : String) (hocc : occ ∉ knownOccasions) :
    occasionRules occ = ["casual"] ∧
    ∀ (clothes : List ClothingItem) (c : ClothingItem),
      ((c ∈ (filterByOccasion clothes occ).tops ↔
          c ∈ clothes ∧ c.type = "top" ∧ c.formality = "casual") ∧
       (c ∈ (filterByOccasion clothes occ).bottoms ↔
          c ∈ clothes ∧ c.type = "bottom" ∧ c.formality = "casual") ∧
       (c ∈ (filterByOccasion clothes occ).shoes ↔
          c ∈ clothes ∧ c.type = "shoes" ∧ c.formality = "casual") ∧
       (c ∈ (filterByOccasion clothes occ).dresses ↔
          c ∈ clothes ∧ c.type = "dress" ∧ c.formality = "casual") ∧
       (c ∈ (filterByOccasion clothes occ).outerwear ↔
          c ∈ clothes ∧ c.type = "outerwear" ∧ c.formality = "casual")) := by
  simp only [knownOccasions, List.mem_cons, List.not_mem_nil, or_false, not_or] at hocc
  obtain ⟨h1, h2, h3, h4, h5, h6, h7⟩ := hocc
  have hrules : occasionRules occ = ["casual"] := by
    simp [occasionRules, h1, h2, h3, h4, h5, h6, h7]
  refine ⟨hrules, ?_⟩
  intro clothes c
  refine ⟨?_, ?_, ?_, ?_, ?_⟩ <;>
    simp [filterByOccasion, hrules, List.mem_filter, and_assoc]

/-- C2 witness: "brunch" is not a known occasion and gets the bare
`["casual"]` allow-list. -/
theorem c2_witness : "brunch" ∉ knownOccasions ∧ occasionRules "brunch" = ["casual"] :=
  ⟨by decide, (c2_amended "brunch" (by decide)).1⟩

/-- C4 counterexample: on the descending list `ex4` with
`desired_count = 3`, the first pass accepts the outfits scored 100 and 80,
the second pass then appends the skipped outfit scored 90 after them, so
the returned list [100, 80, 90] is not in descending score order. -/
theorem c4_cex :
    List.Sorted (fun a b : Int => b ≤ a) (ex4.map Prod.snd) ∧
    (selectDiverseOutfits ex4 3).map Prod.snd = [100, 80, 90] ∧
    ¬ List.Sorted (fun a b : Int => b ≤ a) ((selectDiverseOutfits ex4 3).map Prod.snd) := by
  refine ⟨by decide, by decide, by decide⟩

/-- C4 amended: `_select_diverse_outfits` returns at most `desired_count`
entries; on a descending input, the result is descending whenever it is
produced without second-pass additions (input already within the quota, or
the first pass filled it) — entries appended by the second pass may break
the global descending order. -/
theorem c4_amended (scored : List (Outfit × Int)) (num : Nat)
    (hsorted : List.Sorted (fun a b : Int => b ≤ a) (scored.map Prod.snd)) :
    (selectDiverseOutfits scored num).length ≤ num ∧
    ((scored.length ≤ num ∨ num ≤ (firstPassAux num scored [] []).length) →
      List.Sorted (fun a b : Int => b ≤ a) ((selectDiverseOutfits scored num).map Prod.snd)) := by
  constructor
  · unfold selectDiverseOutfits
    by_cases hlen : scored.length ≤ num
    · rw [if_pos hlen]
      exact hlen
    · rw [if_neg hlen]
      simp [List.length_take]
  · intro hcase
    by_cases hlen : scored.length ≤ num
    · unfold selectDiverseOutfits
      rw [if_pos hlen]
      exact hsorted
    · have hfp : num ≤ (firstPassAux num scored [] []).length := by
        rcases hcase with hcase | hcase
        · exact absurd hcase hlen
        · exact hcase
      unfold selectDiverseOutfits
      rw [if_neg hlen]
      show List.Sorted _ ((List.take num (secondPassAux num scored (firstPassAux num scored [] []))).map Prod.snd)
      rw [secondPassAux_stop hfp]
      rcases firstPassAux_append scored [] [] with ⟨t, ht, hsub⟩
      rw [List.nil_append] at ht
      rw [ht]
      have hsorted_t : List.Sorted (fun a b : Int => b ≤ a) (t.map Prod.snd) :=
        List.Pairwise.sublist (hsub.map Prod.snd) hsorted
      rw [List.map_take]
      exact List.Pairwise.sublist (List.take_sublist num (t.map Prod.snd)) hsorted_t

/-- C4 witness: the amended bound at the concrete descending list `ex4`. -/
theorem c4_witness :
    List.Sorted (fun a b : Int => b ≤ a) (ex4.map Prod.snd) ∧
    (selectDiverseOutfits ex4 3).length ≤ 3 :=
  ⟨by decide, (c4_amended ex4 3 (by decide)).1⟩

/-- C5 counterexample: a wardrobe of two tops and two bottoms yields four
scored combinations, i.e. no more than `desired_count = 4`, so
`_select_diverse_outfits` returns them unfiltered: the result contains two
outfits sharing item id 1 even though the candidate list also contains two
item-disjoint combinations. -/
theorem c5_cex :
    getSuggestions W5 "casual" w25 z0 4 =
      [(Outfit.regular t1 b1 none, 120), (Outfit.regular t1 b2 none, 120),
       (Outfit.regular t2 b1 none, 120), (Outfit.regular t2 b2 none, 120)] ∧
    (1 ∈ outfitItemIds (Outfit.regular t1 b1 none) ∧
     1 ∈ outfitItemIds (Outfit.regular t1 b2 none)) ∧
    (∀ i ∈ outfitItemIds (Outfit.regular t1 b1 none),
      i ∉ outfitItemIds (Outfit.regular t2 b2 none)) := by
  refine ⟨by decide, by decide, by decide⟩

/-- C5 amended: when the scored list is strictly longer than
`desired_count` (so the selection passes actually run), the outfits
accepted by the first pass are pairwise item-disjoint, and they form a
prefix of the returned list. -/
theorem c5_amended (scored : List (Outfit × Int)) (num : Nat) (h : num < scored.length) :
    List.Pairwise (fun p q : Outfit × Int => ∀ i ∈ outfitItemIds p.1, i ∉ outfitItemIds q.1)
      (firstPassAux num scored [] []) ∧
    ∃ rest, selectDiverseOutfits scored num = firstPassAux num scored [] [] ++ rest :=
  ⟨firstPassAux_disjoint scored [] [] (by simp) (by simp),
    selectDiverse_firstPass_prefix h⟩

/-- C5 witness: the first pass over `ex4` with quota 3 accepts pairwise
item-disjoint outfits. -/
theorem c5_witness :
    3 < ex4.length ∧
    List.Pairwise (fun p q : Outfit × Int => ∀ i ∈ outfitItemIds p.1, i ∉ outfitItemIds q.1)
      (firstPassAux 3 ex4 [] []) :=
  ⟨by decide, (c5_amended ex4 3 (by decide)).1⟩

/-- C1 counterexample: with a learned color preference of weight 2 for the
top's color, `apply_style_bonus` is 10, yet `get_suggestions` returns the
single outfit with score 108 = 50 + weather + colors + variety + patterns +
jitter, without the bonus: the returned score is not 108 + 10. -/
theorem c1_cex :
    getSuggestions W1 "casual" w25 z0 4 = [(o1, 108)] ∧
    applyStyleBonus prefsR o1 = 10 ∧
    scoreOne o1 w25 + z0 0 = 108 ∧
    (108 : Int) ≠ 108 + applyStyleBonus prefsR o1 := by
  have hbonus : applyStyleBonus prefsR o1 = 10 := by
    simp [applyStyleBonus, prefsR, o1, topR, botB, mkItem, outfitItems, lookupPref, pyTrunc]
    norm_num
  refine ⟨by decide, hbonus, by decide, ?_⟩
  rw [hbonus]
  decide

/-- C1 amended: every score returned by `get_suggestions` decomposes as
base 50 plus the weather, color-coordination, variety and pattern
components plus the jitter draw of its combination — the style-profile
bonus (`apply_style_bonus`) is defined by the Style Profile Manager but is
never added by the recommender's scoring. -/
theorem c1_amended (wardrobe : List ClothingItem) (occasion : String) (weather : Weather)
    (jitter : Nat → Int) (num : Nat) (p : Outfit × Int)
    (hp : p ∈ getSuggestions wardrobe occasion weather jitter num) :
    ∃ k, (createCombinations
        (filterByWeather (filterByOccasion (getAllClothes wardrobe) occasion) weather))[k]? =
          some p.1 ∧
      p.2 = 50 + scoreWeather p.1 weather + scoreColors p.1 + scoreVariety p.1
          + scorePatterns p.1 + jitter k := by
  rcases mem_scoreOutfits (mem_getSuggestions hp) with ⟨k, hk, hsc⟩
  exact ⟨k, hk, by rw [hsc]; rfl⟩

/-- C1 witness: the single outfit of the two-item wardrobe occurs in the
result and its score decomposes as stated. -/
theorem c1_witness :
    (o1, (108 : Int)) ∈ getSuggestions W1 "casual" w25 z0 4 ∧
    ∃ k, (createCombinations
        (filterByWeather (filterByOccasion (getAllClothes W1) "casual") w25))[k]? = some o1 ∧
      (108 : Int) = 50 + scoreWeather o1 w25 + scoreColors o1 + scoreVariety o1
          + scorePatterns o1 + z0 k :=
  ⟨by decide, c1_amended W1 "casual" w25 z0 4 (o1, 108) (by decide)⟩

/-- C9: no suggested outfit ever contains an outerwear item — every item of
every returned outfit comes from the tops/bottoms/shoes/dresses buckets
(whose members have the corresponding `type`), and combination generation
does not read the outerwear bucket at all. -/
theorem c9_no_outerwear :
    (∀ (wardrobe : List ClothingItem) (occasion : String) (weather : Weather)
        (jitter : Nat → Int) (num : Nat),
      ∀ p ∈ getSuggestions wardrobe occasion weather jitter num,
        ∀ item ∈ outfitItems p.1, item.type ≠ "outerwear") ∧
    (∀ (s : Buckets) (ow : List ClothingItem),
      createCombinations { s with outerwear := ow } = createCombinations s) := by
  constructor
  · intro wardrobe occasion weather jitter num p hp item hitem
    rcases mem_scoreOutfits (mem_getSuggestions hp) with ⟨k, hk, _⟩
    have hcombo : p.1 ∈ createCombinations
        (filterByWeather (filterByOccasion (getAllClothes wardrobe) occasion) weather) :=
      List.getElem?_mem hk
    have hoccw := @filterByWeather_sub (filterByOccasion (getAllClothes wardrobe) occasion) weather
    have htypes := @filterByOccasion_types (getAllClothes wardrobe) occasion
    rcases mem_createCombinations hcombo with ⟨t, ht, b, hb, sh, heq, hsh⟩ | ⟨d, hd, sh, heq, hsh⟩
    · rw [heq] at hitem
      have hitem' : item = t ∨ item = b ∨ item ∈ sh.toList := by
        simp only [outfitItems, List.mem_append, List.mem_cons, List.not_mem_nil,
          or_false] at hitem
        tauto
      rcases hitem' with rfl | rfl | hitem
      · rw [htypes.1 item (hoccw.1 item ht)]
        decide
      · rw [htypes.2.1 item (hoccw.2.1 item hb)]
        decide
      · rcases hsh with rfl | ⟨x, hx, rfl⟩
        · simp at hitem
        · simp only [Option.toList_some, List.mem_singleton] at hitem
          subst hitem
          rw [htypes.2.2.1 item (hoccw.2.2.1 item hx)]
          decide
    · rw [heq] at hitem
      have hitem' : item = d ∨ item ∈ sh.toList := by
        simp only [outfitItems, List.mem_append, List.mem_cons, List.not_mem_nil,
          or_false] at hitem
        tauto
      rcases hitem' with rfl | hitem
      · rw [htypes.2.2.2 item (hoccw.2.2.2 item hd)]
        decide
      · rcases hsh with rfl | ⟨x, hx, rfl⟩
        · simp at hitem
        · simp only [Option.toList_some, List.mem_singleton] at hitem
          subst hitem
          rw [htypes.2.2.1 item (hoccw.2.2.1 item hx)]
          decide
  · intro s ow
    rfl

/-- C9 witness: the outfit returned for the two-item wardrobe has no
outerwear item. -/
theorem c9_witness :
    (o1, (108 : Int)) ∈ getSuggestions W1 "casual" w25 z0 4 ∧
    (∀ item ∈ outfitItems o1, item.type ≠ "outerwear") :=
  ⟨by decide, c9_no_outerwear.1 W1 "casual" w25 z0 4 (o1, 108) (by decide)⟩

theorem updatePreference_weightsOk {tbl : List ((String × String) × Rat)} {pt pv : String}
    {change : Rat} (h1 : -1 ≤ change) (h2 : change ≤ 4) (h : weightsOk tbl) :
    weightsOk (updatePreference tbl pt pv change) := by
  unfold updatePreference
  by_cases hany : tbl.any (fun e => e.1 = (pt, pv)) = true
  · rw [if_pos hany]
    intro e he
    rcases List.mem_map.mp he with ⟨x, hx, rfl⟩
    by_cases hkey : x.1 = (pt, pv)
    · rw [if_pos hkey]
      exact ⟨le_max_left 0 _, max_le (by norm_num) (min_le_left _ _)⟩
    · rw [if_neg hkey]
      exact h x hx
  · rw [if_neg hany]
    intro e he
    rcases List.mem_append.mp he with he | he
    · exact h e he
    · simp only [List.mem_singleton] at he
      subst he
      constructor
      · show (0 : ℚ) ≤ 1 + change
        linarith
      · show (1 : ℚ) + change ≤ 5
        linarith

theorem learnItem_weightsOk {tbl : List ((String × String) × Rat)} {item : ClothingItem}
    {change : Rat} (h1 : -1 ≤ change) (h2 : change ≤ 4) (h : weightsOk tbl) :
    weightsOk (learnItem tbl item change) := by
  have hcol : weightsOk
      (match item.color_primary with
       | some c => if c ≠ "" then updatePreference tbl "color" c change else tbl
       | none => tbl) := by
    split
    · split
      · exact updatePreference_weightsOk h1 h2 h
      · exact h
    · exact h
  have hform : weightsOk
      (if item.formality ≠ "" then
        updatePreference
          (match item.color_primary with
           | some c => if c ≠ "" then updatePreference tbl "color" c change else tbl
           | none => tbl) "formality" item.formality change
       else
        (match item.color_primary with
         | some c => if c ≠ "" then updatePreference tbl "color" c change else tbl
         | none => tbl)) := by
    split
    · exact updatePreference_weightsOk h1 h2 hcol
    · exact hcol
  show weightsOk
      (match item.pattern with
       | some p => if p ≠ "" then updatePreference
            (if item.formality ≠ "" then
              updatePreference
                (match item.color_primary with
                 | some c => if c ≠ "" then updatePreference tbl "color" c change else tbl
                 | none => tbl) "formality" item.formality change
             else
              (match item.color_primary with
               | some c => if c ≠ "" then updatePreference tbl "color" c change else tbl
               | none => tbl)) "pattern" p change
          else
            (if item.formality ≠ "" then
              updatePreference
                (match item.color_primary with
                 | some c => if c ≠ "" then updatePreference tbl "color" c change else tbl
                 | none => tbl) "formality" item.formality change
             else
              (match item.color_primary with
               | some c => if c ≠ "" then updatePreference tbl "color" c change else tbl
               | none => tbl))
       | none =>
            (if item.formality ≠ "" then
              updatePreference
                (match item.color_primary with
                 | some c => if c ≠ "" then updatePreference tbl "color" c change else tbl
                 | none => tbl) "formality" item.formality change
             else
              (match item.color_primary with
               | some c => if c ≠ "" then updatePreference tbl "color" c change else tbl
               | none => tbl)))
  split
  · split
    · exact updatePreference_weightsOk h1 h2 hform
    · exact hform
  · exact hform

theorem foldl_weightsOk {α : Type}
    (f : List ((String × String) × Rat) → α → List ((String × String) × Rat))
    (hf : ∀ tbl a, weightsOk tbl → weightsOk (f tbl a)) :
    ∀ (l : List α) (tbl), weightsOk tbl → weightsOk (l.foldl f tbl) := by
  intro l
  induction l with
  | nil => exact fun tbl h => h
  | cons a rest ih => exact fun tbl h => ih (f tbl a) (hf tbl a h)

theorem rateOutfitState_weightsOk {db : ProfileDB} {oid : Nat} {rating : Int}
    {fb : Option String} (h1 : 1 ≤ rating) (h2 : rating ≤ 5) (h : weightsOk db.style_profile) :
    weightsOk (rateOutfitState db oid rating fb).style_profile := by
  have hr1 : (1 : ℚ) ≤ (rating : ℚ) := by exact_mod_cast h1
  have hr2 : ((rating : ℚ)) ≤ 5 := by exact_mod_cast h2
  have hwc1 : (-1 : ℚ) ≤ ((rating : ℚ) - 3) * 0.5 := by linarith
  have hwc2 : ((rating : ℚ) - 3) * 0.5 ≤ 4 := by linarith
  have hoc1 : (-1 : ℚ) ≤ ((rating : ℚ) - 3) * 0.3 := by linarith
  have hoc2 : ((rating : ℚ) - 3) * 0.3 ≤ 4 := by linarith
  simp only [rateOutfitState, rateOutfit, profileDB_ratings_update_outfits,
    profileDB_ratings_update_clothes, profileDB_ratings_update_profile]
  cases hfind : db.outfits.find? (fun r => r.id = oid) with
  | none => exact h
  | some row =>
      show weightsOk
        (match row.occasion with
         | some occ =>
            if occ ≠ "" then
              updatePreference
                ((([row.top_id, row.bottom_id, row.shoes_id].filter optTruthyNat).filterMap id).foldl
                  (fun tbl itemId =>
                    match db.clothes.find? (fun c => c.id = itemId) with
                    | none => tbl
                    | some item => learnItem tbl item (((rating : ℚ) - 3) * 0.5)) db.style_profile)
                "occasion" occ (((rating : ℚ) - 3) * 0.3)
            else
              ((([row.top_id, row.bottom_id, row.shoes_id].filter optTruthyNat).filterMap id).foldl
                (fun tbl itemId =>
                  match db.clothes.find? (fun c => c.id = itemId) with
                  | none => tbl
                  | some item => learnItem tbl item (((rating : ℚ) - 3) * 0.5)) db.style_profile)
         | none =>
            ((([row.top_id, row.bottom_id, row.shoes_id].filter optTruthyNat).filterMap id).foldl
              (fun tbl itemId =>
                match db.clothes.find? (fun c => c.id = itemId) with
                | none => tbl
                | some item => learnItem tbl item (((rating : ℚ) - 3) * 0.5)) db.style_profile))
      have hfold : weightsOk
          ((([row.top_id, row.bottom_id, row.shoes_id].filter optTruthyNat).filterMap id).foldl
            (fun tbl itemId =>
              match db.clothes.find? (fun c => c.id = itemId) with
              | none => tbl
              | some item => learnItem tbl item (((rating : ℚ) - 3) * 0.5)) db.style_profile) := by
        refine foldl_weightsOk _ ?_ _ _ h
        intro tbl a htbl
        split
        · exact htbl
        · exact learnItem_weightsOk hwc1 hwc2 htbl
      split
      · split
        · exact updatePreference_weightsOk hoc1 hoc2 hfold
        · exact hfold
      · exact hfold

theorem rateFive_mkDbRed (n : Nat) (sp : List ((String × String) × Rat)) :
    rateFive (mkDbRed n sp) = mkDbRed (n + 1) (updatePreference sp "color" "#ff0000" 1) := by
  simp [rateFive, rateOutfitState, rateOutfit, mkDbRed, row1, redItem, mkItem, ratRows,
    learnItem, optTruthyNat, List.replicate_succ']
  norm_num

theorem rateFive_iterate (n : Nat) : rateFive^[n] dbRed = mkDbRed n (spIter n) := by
  induction n with
  | zero => rfl
  | succ n ih =>
      rw [Function.iterate_succ_apply', ih, rateFive_mkDbRed]
      rfl

theorem spIter_four : spIter 4 = [(("color", "#ff0000"), 5)] := by
  have h1 : spIter 1 = [(("color", "#ff0000"), 2)] := by
    simp [spIter, updatePreference]
    norm_num
  have h2 : spIter 2 = [(("color", "#ff0000"), 3)] := by
    show updatePreference (spIter 1) "color" "#ff0000" 1 = _
    rw [h1]
    simp [updatePreference]
    norm_num [min_def, max_def]
  have h3 : spIter 3 = [(("color", "#ff0000"), 4)] := by
    show updatePreference (spIter 2) "color" "#ff0000" 1 = _
    rw [h2]
    simp [updatePreference]
    norm_num [min_def, max_def]
  show updatePreference (spIter 3) "color" "#ff0000" 1 = _
  rw [h3]
  simp [updatePreference]
  norm_num [min_def, max_def]

theorem spIter_sat (m : Nat) : spIter (m + 4) = [(("color", "#ff0000"), 5)] := by
  induction m with
  | zero => exact spIter_four
  | succ m ih =>
      have heq : m + 1 + 4 = (m + 4) + 1 := by omega
      rw [heq]
      show updatePreference (spIter (m + 4)) "color" "#ff0000" 1 = _
      rw [ih]
      simp [updatePreference]

/-- C6: for rating sequences within [1,5] every stored preference weight
stays in [0,5] after every call; an unseen (type, value) key is initialised
as baseline 1.0 plus the first nudge; and 100 consecutive 5-star ratings
touching the same color leave that color's weight at exactly 5.0, never
above. -/
theorem c6_weight_clamp :
    (∀ (db : ProfileDB) (calls : List (Nat × Int × Option String)),
      weightsOk db.style_profile →
      (∀ c ∈ calls, 1 ≤ c.2.1 ∧ c.2.1 ≤ 5) →
      weightsOk ((calls.foldl (fun d c => rateOutfitState d c.1 c.2.1 c.2.2) db).style_profile)) ∧
    (∀ (tbl : List ((String × String) × Rat)) (pt pv : String) (change : Rat),
      (∀ e ∈ tbl, e.1 ≠ (pt, pv)) →
      updatePreference tbl pt pv change = tbl ++ [((pt, pv), 1 + change)]) ∧
    lookupWeight ((rateFive^[100] dbRed).style_profile) "color" "#ff0000" = some 5 := by
  refine ⟨?_, ?_, ?_⟩
  · intro db calls
    induction calls generalizing db with
    | nil => exact fun h _ => h
    | cons c rest ih =>
        intro h hall
        simp only [List.foldl_cons]
        refine ih _ (rateOutfitState_weightsOk ?_ ?_ h) ?_
        · exact (hall c (List.mem_cons_self c rest)).1
        · exact (hall c (List.mem_cons_self c rest)).2
        · exact fun c' hc' => hall c' (List.mem_cons_of_mem _ hc')
  · intro tbl pt pv change hnone
    have hany : ¬ (tbl.any (fun e => e.1 = (pt, pv)) = true) := by
      simp only [List.any_eq_true, decide_eq_true_eq]
      rintro ⟨x, hx, he⟩
      exact hnone x hx he
    unfold updatePreference
    rw [if_neg hany]
  · have hsat : spIter 100 = [(("color", "#ff0000"), 5)] := by
      have h96 := spIter_sat 96
      norm_num at h96
      exact h96
    rw [rateFive_iterate 100]
    simp only [mkDbRed, hsat]
    simp [lookupWeight]

/-- C6 witness: a single in-range call on the fresh database keeps all
weights in range, and the unseen-key initialisation applies at the empty
table. -/
theorem c6_witness :
    weightsOk dbRed.style_profile ∧
    (∀ c ∈ [((1 : Nat), (5 : Int), (none : Option String))], 1 ≤ c.2.1 ∧ c.2.1 ≤ 5) ∧
    weightsOk (([((1 : Nat), (5 : Int), (none : Option String))].foldl
      (fun d c => rateOutfitState d c.1 c.2.1 c.2.2) dbRed).style_profile) ∧
    updatePreference [] "color" "#ff0000" 1 = [(("color", "#ff0000"), 1 + 1)] :=
  ⟨by simp [weightsOk, dbRed], by decide,
    c6_weight_clamp.1 dbRed [((1 : Nat), (5 : Int), (none : Option String))]
      (by simp [weightsOk, dbRed]) (by decide),
    c6_weight_clamp.2.1 [] "color" "#ff0000" 1 (by simp)⟩

/-- C7 counterexample: rating the nonexistent outfit 99 returns normally
(`Except.ok`, not a NotFound signal), leaving the style profile unchanged
and appending the one rating row. -/
theorem c7_cex :
    rateOutfit db7 99 4 none =
      Except.ok ⟨[(("color", "#ff0000"), 2)],
        [((99 : Nat), (4 : Int), (none : Option String))], [row1], [redItem]⟩ := by
  simp [rateOutfit, db7, row1, redItem, mkItem]

/-- C7 amended: when the outfit id resolves to no logged outfit,
`rate_outfit` signals nothing to the caller (it returns normally), performs
no preference-weight update, and still records exactly one rating row. -/
theorem c7_amended (db : ProfileDB) (oid : Nat) (rating : Int) (fb : Option String)
    (h : db.outfits.find? (fun r => r.id = oid) = none) :
    rateOutfit db oid rating fb =
      Except.ok { db with outfit_ratings := db.outfit_ratings ++ [(oid, rating, fb)] } := by
  unfold rateOutfit
  simp only [profileDB_ratings_update_outfits, h]

/-- C7 witness: the amended behaviour at the concrete database `db7` and
missing outfit id 99. -/
theorem c7_witness :
    db7.outfits.find? (fun r => r.id = 99) = none ∧
    rateOutfit db7 99 4 none =
      Except.ok { db7 with
        outfit_ratings := [((99 : Nat), (4 : Int), (none : Option String))] } := by
  refine ⟨by decide, ?_⟩
  have happ := c7_amended db7 99 4 none (by decide)
  simpa [db7] using happ

/-- C8 counterexample: the out-of-range rating −1 is stored verbatim in
`outfit_ratings`, and the first-touch color weight is initialised to
1.0 + (−1 − 3)·0.5 = −1.0, outside [0, 5]. -/
theorem c8_cex :
    (rateOutfitState dbRed 1 (-1) none).outfit_ratings =
      [((1 : Nat), (-1 : Int), (none : Option String))] ∧
    (rateOutfitState dbRed 1 (-1) none).style_profile = [(("color", "#ff0000"), -1)] ∧
    ¬ weightsOk (rateOutfitState dbRed 1 (-1) none).style_profile := by
  have hstate : rateOutfitState dbRed 1 (-1) none =
      ⟨[(("color", "#ff0000"), -1)], [((1 : Nat), (-1 : Int), (none : Option String))],
        [row1], [redItem]⟩ := by
    simp [rateOutfitState, rateOutfit, dbRed, row1, redItem, mkItem, learnItem, optTruthyNat,
      updatePreference]
    norm_num
  refine ⟨by rw [hstate], by rw [hstate], ?_⟩
  rw [hstate]
  simp [weightsOk]

/-- C8 amended: `rate_outfit` performs no validation: every rating is
recorded verbatim in `outfit_ratings`; only an update to a preference key
already present is clamped into [0, 5] (a first-touch insertion is not
clamped). -/
theorem c8_amended :
    (∀ (db : ProfileDB) (oid : Nat) (rating : Int) (fb : Option String),
      (rateOutfitState db oid rating fb).outfit_ratings =
        db.outfit_ratings ++ [(oid, rating, fb)]) ∧
    (∀ (tbl : List ((String × String) × Rat)) (pt pv : String) (change : Rat),
      tbl.any (fun e => e.1 = (pt, pv)) = true →
      ∀ e ∈ updatePreference tbl pt pv change, e ∈ tbl ∨ (0 ≤ e.2 ∧ e.2 ≤ 5)) := by
  constructor
  · intro db oid rating fb
    simp only [rateOutfitState, rateOutfit, profileDB_ratings_update_outfits]
    cases hfind : db.outfits.find? (fun r => r.id = oid) with
    | none => rfl
    | some row => rfl
  · intro tbl pt pv change hany e he
    unfold updatePreference at he
    rw [if_pos hany] at he
    rcases List.mem_map.mp he with ⟨x, hx, rfl⟩
    by_cases hkey : x.1 = (pt, pv)
    · rw [if_pos hkey]
      exact Or.inr ⟨le_max_left 0 _, max_le (by norm_num) (min_le_left _ _)⟩
    · rw [if_neg hkey]
      exact Or.inl hx

/-- C8 witness: the amended facts at a concrete database (rating 7 stored
verbatim) and at a one-entry table whose present key is clamped. -/
theorem c8_witness :
    (rateOutfitState dbRed 1 7 none).outfit_ratings =
      [((1 : Nat), (7 : Int), (none : Option String))] ∧
    ([(("color", "#ff0000"), (2 : Rat))].any (fun e => e.1 = ("color", "#ff0000")) = true) ∧
    (∀ e ∈ updatePreference [(("color", "#ff0000"), (2 : Rat))] "color" "#ff0000" 9,
      e ∈ [(("color", "#ff0000"), (2 : Rat))] ∨ (0 ≤ e.2 ∧ e.2 ≤ 5)) := by
  refine ⟨?_, by decide, ?_⟩
  · have happ := c8_amended.1 dbRed 1 7 none
    simpa [dbRed] using happ
  · exact c8_amended.2 [(("color", "#ff0000"), (2 : Rat))] "color" "#ff0000" 9 (by decide)
